/-
Verification of the magnesium radio control plane
(host/lib/usrp/dboard/magnesium/magnesium_radio_ctrl_impl.cpp).

Shallow embedding: frequencies, gains and bandwidths are exact rationals
(the source only passes them through, it never computes with them), machine
strings are Lean strings, fallible calls return Except.  The reactive
property tree and the RPC client facade are external collaborators of the
translated file; they are modelled from the specification's contract
(sections 4.1 and 4.3) where noted.
-/
import Mathlib

namespace Magnesium

/-- uhd direction_t (uhd/types/direction.hpp): RX, TX, and the "dual"
DX value, which is neither receive nor transmit for `_get_which`. -/
inductive direction_t where
  | RX_DIRECTION
  | TX_DIRECTION
  | DX_DIRECTION
deriving DecidableEq

/-- Error kinds of the control plane (spec section 7).  InvalidArgument
stands for the exception thrown by UHD_ASSERT_THROW on a bad
channel/direction; NoSessionToken for an RPC attempted before
set_rpc_client supplied a client; LookupError for a property-tree access
to a path that was never created. -/
inductive UhdError where
  | InvalidArgument
  | NoSessionToken
  | RemoteCallFailure
  | LookupError

/- Constants from the anonymous namespace (lines 26-42 of the source). -/

def MAGNESIUM_TICK_RATE : ℚ := 125000000

def MAGNESIUM_RADIO_RATE : ℚ := 125000000

def MAGNESIUM_MIN_FREQ : ℚ := 300000000

def MAGNESIUM_MAX_FREQ : ℚ := 6000000000

def MAGNESIUM_MIN_RX_GAIN : ℚ := 0

def MAGNESIUM_MAX_RX_GAIN : ℚ := 30

def MAGNESIUM_RX_GAIN_STEP : ℚ := 1/2

def MAGNESIUM_MIN_TX_GAIN : ℚ := 0

def MAGNESIUM_MAX_TX_GAIN : ℚ := 4195/100

def MAGNESIUM_TX_GAIN_STEP : ℚ := 5/100

def MAGNESIUM_CENTER_FREQ : ℚ := 2500000000

def MAGNESIUM_DEFAULT_RX_ANTENNA : String := "RX2"

def MAGNESIUM_DEFAULT_TX_ANTENNA : String := "TX/RX"

def MAGNESIUM_DEFAULT_GAIN : ℚ := 0

def MAGNESIUM_DEFAULT_BANDWIDTH : ℚ := 40000000

def MAGNESIUM_NUM_TX_CHANS : Nat := 1

def MAGNESIUM_NUM_RX_CHANS : Nat := 1

/- Decimal printing and parsing, the character-level behaviour of
std::to_string(size_t) and boost::lexical_cast<size_t>(std::string). -/

/-- The character for a single decimal digit (codepoint 48 + d). -/
def dchar (d : Nat) : Char := Char.ofNat (48 + d)

/-- Decimal digits of n, least significant first, with explicit fuel so
that the definition is structurally recursive (and computes); agrees
with Nat.digits 10 when the fuel suffices, see decimalDigitsAux_eq. -/
def decimalDigitsAux : Nat → Nat → List Nat
  | 0, _ => []
  | fuel + 1, n => if n = 0 then [] else n % 10 :: decimalDigitsAux fuel (n / 10)

/-- std::to_string on an unsigned integer: decimal digits, most
significant first, "0" for zero. -/
def decimalChars (n : Nat) : List Char :=
  if n = 0 then [dchar 0] else ((decimalDigitsAux n n).map dchar).reverse

/-- std::to_string wrapped into a string. -/
def std_to_string (n : Nat) : String := ⟨decimalChars n⟩

/-- One character read back as a decimal digit; none when the character
is not a digit. -/
def charToDigit? (c : Char) : Option Nat :=
  if 48 ≤ c.toNat ∧ c.toNat ≤ 57 then some (c.toNat - 48) else none

/-- Read every character as a digit, most significant first; none as soon
as one character is not a digit. -/
def parseDigits? : List Char → Option (List Nat)
  | [] => some []
  | c :: cs =>
    match charToDigit? c, parseDigits? cs with
    | some d, some ds => some (d :: ds)
    | _, _ => none

/-- boost::lexical_cast<size_t>: parse the whole string as a decimal
number, failing (the C++ code throws bad_lexical_cast) on an empty
string or a non-digit character. -/
def lexical_cast_nat (s : String) : Option Nat :=
  match parseDigits? s.data with
  | some ds => if ds = [] then none else some (Nat.ofDigits 10 ds.reverse)
  | none => none

/-- _get_which (source lines 48-56): the AD9371 "which" string.
UHD_ASSERT_THROW rejects a direction other than RX/TX and a channel
other than 0/1; otherwise the result is "RX"/"TX" followed by the
1-based channel number. -/
def _get_which (dir : direction_t) (chan : Nat) : Except UhdError String :=
  if dir = .RX_DIRECTION ∨ dir = .TX_DIRECTION then
    if chan = 0 ∨ chan = 1 then
      .ok ((if dir = .RX_DIRECTION then "RX" else "TX") ++ std_to_string (chan + 1))
    else
      .error .InvalidArgument
  else
    .error .InvalidArgument


/- RPC facade and adapter state. -/

/-- One positional RPC argument (the wire protocol carries strings,
numbers and the retune flag). -/
inductive RpcVal where
  | str (s : String)
  | num (q : ℚ)
  | flag (b : Bool)

/-- Modelled from the spec (section 4.3, the RPC Client Facade is not
under src/): the firmware's response function for double-returning
calls; request_with_token applies it to the method name and argument
list. -/
def RpcClient : Type := String → List RpcVal → ℚ

/-- Adapter-visible state: the RPC method name stem chosen in the ctor
(source member variable for the per-board method names, "db_0_" or
"db_1_"), the optionally attached RPC client (absent until
set_rpc_client is called), and the trace of issued RPC calls (the
instrumentation used to state freshness claims). -/
structure RadioState where
  rpc_pfx : String
  rpcc : Option RpcClient
  rpc_log : List (String × List RpcVal)

def log_call (s : RadioState) (m : String) (a : List RpcVal) : RadioState :=
  { s with rpc_log := s.rpc_log ++ [(m, a)] }

/-- Modelled from the spec (sections 4.3 and 7): request_with_token
issues the call when a client is attached and fails with NoSessionToken
when invoked before one was supplied. -/
def request_with_token (s : RadioState) (m : String) (a : List RpcVal) :
    Except UhdError (ℚ × RadioState) :=
  match s.rpcc with
  | none => .error .NoSessionToken
  | some f => .ok (f m a, log_call s m a)

/- AD9371 controls (source lines 411-488). -/

/-- _myk_set_frequency (source lines 411-426): derives the which
string, issues "set_freq" with (which, freq, false) and returns the
value the firmware reports. -/
def _myk_set_frequency (freq : ℚ) (chan : Nat) (dir : direction_t) (s : RadioState) :
    Except UhdError (ℚ × RadioState) := do
  let which ← _get_which dir chan
  request_with_token s (s.rpc_pfx ++ "set_freq") [.str which, .num freq, .flag false]

/-- _myk_set_gain (source lines 428-438). -/
def _myk_set_gain (gain : ℚ) (chan : Nat) (dir : direction_t) (s : RadioState) :
    Except UhdError (ℚ × RadioState) := do
  let which ← _get_which dir chan
  request_with_token s (s.rpc_pfx ++ "set_gain") [.str which, .num gain]

/-- _myk_set_antenna (source lines 440-448): logs a warning and ignores
the write; the state is untouched. -/
def _myk_set_antenna (ant : String) (chan : Nat) (dir : direction_t) (s : RadioState) :
    RadioState :=
  s

/-- _myk_get_antenna (source lines 475-481): logs a warning and returns
the fixed string "RX1" for every channel and direction. -/
def _myk_get_antenna (chan : Nat) (dir : direction_t) : String :=
  "RX1"

/-- _myk_get_bandwidth (source lines 483-488): logs a warning and
returns the default bandwidth for every channel and direction. -/
def _myk_get_bandwidth (chan : Nat) (dir : direction_t) : ℚ :=
  MAGNESIUM_DEFAULT_BANDWIDTH

/-- get_rx_bandwidth (source lines 345-349). -/
def get_rx_bandwidth (chan : Nat) : ℚ :=
  _myk_get_bandwidth chan .RX_DIRECTION

/-- _myk_set_bandwidth (source lines 450-455): logs a warning, ignores
the write and returns the current (fixed) RX bandwidth. -/
def _myk_set_bandwidth (bandwidth : ℚ) (chan : Nat) (dir : direction_t) : ℚ :=
  get_rx_bandwidth chan

/-- _myk_get_frequency (source lines 457-464): derives the which string
and issues a fresh "get_freq" RPC call; the result is whatever the
firmware reports, no stored value is consulted. -/
def _myk_get_frequency (chan : Nat) (dir : direction_t) (s : RadioState) :
    Except UhdError (ℚ × RadioState) := do
  let which ← _get_which dir chan
  request_with_token s (s.rpc_pfx ++ "get_freq") [.str which]

/-- _myk_get_gain (source lines 466-473). -/
def _myk_get_gain (chan : Nat) (dir : direction_t) (s : RadioState) :
    Except UhdError (ℚ × RadioState) := do
  let which ← _get_which dir chan
  request_with_token s (s.rpc_pfx ++ "get_gain") [.str which]

/- API wrappers (source lines 260-364). -/

def set_tx_antenna (ant : String) (chan : Nat) (s : RadioState) : RadioState :=
  _myk_set_antenna ant chan .TX_DIRECTION s

def set_rx_antenna (ant : String) (chan : Nat) (s : RadioState) : RadioState :=
  _myk_set_antenna ant chan .RX_DIRECTION s

def set_tx_frequency (freq : ℚ) (chan : Nat) (s : RadioState) :
    Except UhdError (ℚ × RadioState) :=
  _myk_set_frequency freq chan .TX_DIRECTION s

def set_rx_frequency (freq : ℚ) (chan : Nat) (s : RadioState) :
    Except UhdError (ℚ × RadioState) :=
  _myk_set_frequency freq chan .RX_DIRECTION s

def set_rx_bandwidth (bandwidth : ℚ) (chan : Nat) : ℚ :=
  _myk_set_bandwidth bandwidth chan .RX_DIRECTION

def set_tx_gain (gain : ℚ) (chan : Nat) (s : RadioState) :
    Except UhdError (ℚ × RadioState) :=
  _myk_set_gain gain chan .TX_DIRECTION s

def set_rx_gain (gain : ℚ) (chan : Nat) (s : RadioState) :
    Except UhdError (ℚ × RadioState) :=
  _myk_set_gain gain chan .RX_DIRECTION s

def get_tx_antenna (chan : Nat) : String :=
  _myk_get_antenna chan .TX_DIRECTION

def get_rx_antenna (chan : Nat) : String :=
  _myk_get_antenna chan .RX_DIRECTION

def get_tx_frequency (chan : Nat) (s : RadioState) : Except UhdError (ℚ × RadioState) :=
  _myk_get_frequency chan .TX_DIRECTION s

def get_rx_frequency (chan : Nat) (s : RadioState) : Except UhdError (ℚ × RadioState) :=
  _myk_get_frequency chan .RX_DIRECTION s

def get_tx_gain (chan : Nat) (s : RadioState) : Except UhdError (ℚ × RadioState) :=
  _myk_get_gain chan .TX_DIRECTION s

def get_rx_gain (chan : Nat) (s : RadioState) : Except UhdError (ℚ × RadioState) :=
  _myk_get_gain chan .RX_DIRECTION s

/-- get_chan_from_dboard_fe (source lines 351-356): parses the frontend
name back to the channel index with boost::lexical_cast<size_t>. -/
def get_chan_from_dboard_fe (fe : String) (dir : direction_t) : Option Nat :=
  lexical_cast_nat fe

/-- get_dboard_fe_from_chan (source lines 358-364): the frontend name
is std::to_string of the channel index. -/
def get_dboard_fe_from_chan (chan : Nat) (dir : direction_t) : String :=
  std_to_string chan

/- Uniform attribute operations (the bodies of the coercion, subscriber
and publisher lambdas that the ctor registers, source lines 105-185). -/

inductive Attr where
  | antenna
  | freq
  | gain
  | bandwidth

/-- A typed property value. -/
inductive PropVal where
  | num (q : ℚ)
  | str (s : String)
  | strlist (l : List String)
  | range (lo hi step : ℚ)

/-- The per-attribute set operation of the frontend control adapter:
the bodies of the write-side lambdas of the ctor, dispatching on the
attribute kind to the corresponding setter.  A value whose type does
not match the attribute is rejected (such a call cannot arise from the
created nodes). -/
def attr_set (a : Attr) (v : PropVal) (chan : Nat) (dir : direction_t) (s : RadioState) :
    Except UhdError (PropVal × RadioState) :=
  match a, v with
  | .antenna, .str ant => .ok (.str ant, _myk_set_antenna ant chan dir s)
  | .freq, .num q => (_myk_set_frequency q chan dir s).map (fun r => (.num r.1, r.2))
  | .gain, .num q => (_myk_set_gain q chan dir s).map (fun r => (.num r.1, r.2))
  | .bandwidth, .num q => .ok (.num (set_rx_bandwidth q chan), s)
  | _, _ => .error .InvalidArgument

/-- The per-attribute get operation of the frontend control adapter:
the bodies of the publisher lambdas of the ctor. -/
def attr_get (a : Attr) (chan : Nat) (dir : direction_t) (s : RadioState) :
    Except UhdError (PropVal × RadioState) :=
  match a with
  | .antenna => .ok (.str (_myk_get_antenna chan dir), s)
  | .freq => (_myk_get_frequency chan dir s).map (fun r => (.num r.1, r.2))
  | .gain => (_myk_get_gain chan dir s).map (fun r => (.num r.1, r.2))
  | .bandwidth => .ok (.num (get_rx_bandwidth chan), s)

/- Property tree. -/

/-- One segment of a property-tree path.  The spec (section 6) gives
the hierarchical, string-segmented path scheme; the segments that occur
in this driver are represented as an enumerated type, with their exact
string spellings given by segString, so that path comparisons in the
model coincide with the engine's string comparisons segment by
segment. -/
inductive FixedSeg where
  | dboards
  | rx_frontends
  | tx_frontends
  | name
  | connection
  | antenna
  | options
  | freq
  | gains
  | null
  | bandwidth
  | value
  | range
deriving DecidableEq

/-- A path segment: one of the fixed names above, a slot letter, or a
channel number. -/
inductive Seg where
  | fixed (f : FixedSeg)
  | slot (c : Char)
  | chan (n : Nat)
deriving DecidableEq

/-- The string spelling of each path segment, as the ctor writes it
into fs_path (a slot is its single letter, a channel its decimal
number). -/
def segString : Seg → String
  | .fixed .dboards => "dboards"
  | .fixed .rx_frontends => "rx_frontends"
  | .fixed .tx_frontends => "tx_frontends"
  | .fixed .name => "name"
  | .fixed .connection => "connection"
  | .fixed .antenna => "antenna"
  | .fixed .options => "options"
  | .fixed .freq => "freq"
  | .fixed .gains => "gains"
  | .fixed .null => "null"
  | .fixed .bandwidth => "bandwidth"
  | .fixed .value => "value"
  | .fixed .range => "range"
  | .slot c => String.mk [c]
  | .chan n => std_to_string n

/-- A hook bound to an attribute kind, channel and direction: exactly
the data the ctor's lambdas capture (spec section 9 describes each hook
as this bound data plus a dispatch to the adapter). -/
structure Hook where
  attr : Attr
  chan : Nat
  dir : direction_t

/-- One property node: stored value, optional write coercer
(set_coercer), optional coerced-write subscriber
(add_coerced_subscriber) and optional read publisher (set_publisher). -/
structure PropNode where
  value : PropVal
  coercer : Option Hook
  subscriber : Option Hook
  publisher : Option Hook

/-- Modelled from the spec (section 4.1; the generic tree-structured
property storage engine is not under src/): the store is the finite map
from paths to nodes that the engine's create/set/get contract
describes. -/
def PropTree : Type := List Seg → Option PropNode

/-- A store with no nodes. -/
def tree_empty : PropTree := fun _ => none

/-- create (spec section 4.1): registers a node at a path.  The ctor
only ever creates fresh paths. -/
def tree_create (t : PropTree) (p : List Seg) (n : PropNode) : PropTree :=
  fun q => if q = p then some n else t q

/-- Raw stored-value overwrite at a path (leaves hooks in place).  Used
both by tree_set to record the effective value and in claims to place
an arbitrary stored value under a node. -/
def tree_store (t : PropTree) (p : List Seg) (v : PropVal) : PropTree :=
  fun q => if q = p then (t q).map (fun n => { n with value := v }) else t q

/-- Modelled from the spec (section 4.1): get invokes the publisher
hook when one is registered, bypassing the stored value, and otherwise
returns the stored value; accessing a path never created fails. -/
def tree_get (t : PropTree) (p : List Seg) (s : RadioState) :
    Except UhdError (PropVal × RadioState) :=
  match t p with
  | none => .error .LookupError
  | some n =>
    match n.publisher with
    | some h => attr_get h.attr h.chan h.dir s
    | none => .ok (n.value, s)

/-- Modelled from the spec (section 4.1): set invokes the coercion hook
with the candidate value, the hook's return value becomes the effective
stored value, then subscribers are notified with the effective value;
a failing hook propagates and nothing is stored. -/
def tree_set (t : PropTree) (p : List Seg) (v : PropVal) (s : RadioState) :
    Except UhdError (PropTree × RadioState) :=
  match t p with
  | none => .error .LookupError
  | some n => do
    let r1 ←
      match n.coercer with
      | some h => attr_set h.attr v h.chan h.dir s
      | none => .ok (v, s)
    let s2 ←
      match n.subscriber with
      | some h => (attr_set h.attr r1.1 h.chan h.dir r1.2).map (fun r => r.2)
      | none => .ok r1.2
    .ok (tree_store t p r1.1, s2)

/- The ctor's dboard frontend subtree (source lines 83-186).  We embed
the double loop over directions and per-direction channel counts; the
sibling nodes outside the dboards subtree (codecs, tick_rate, eeprom)
play no part in any claim and are omitted. -/

def dir_of_fe (fe_idx : Nat) : direction_t :=
  if fe_idx = 0 then .RX_DIRECTION else .TX_DIRECTION

def fe_seg : Nat → Seg
  | 0 => .fixed .rx_frontends
  | _ => .fixed .tx_frontends

def ant_name : Nat → String
  | 0 => "RX"
  | _ => "TX"

def num_chans : Nat → Nat
  | 0 => MAGNESIUM_NUM_RX_CHANS
  | _ => MAGNESIUM_NUM_TX_CHANS

/-- The create/set calls for one (direction, channel) cell of the ctor
loop (source lines 96-185), applied to the store in source order. -/
def fe_nodes (slot : Char) (fe_idx : Nat) (chan : Nat) (t : PropTree) : PropTree :=
  let fe_path : List Seg := [.fixed .dboards, .slot slot, fe_seg fe_idx, .chan chan]
  let dir := dir_of_fe fe_idx
  let defAnt := ant_name fe_idx ++ std_to_string (chan + 1)
  let t := tree_create t (fe_path ++ [.fixed .name])
    ⟨.str ("Magnesium " ++ ant_name fe_idx ++ " " ++ std_to_string chan),
      none, none, none⟩
  let t := tree_create t (fe_path ++ [.fixed .connection]) ⟨.str "IQ", none, none, none⟩
  let t := tree_create t (fe_path ++ [.fixed .antenna, .fixed .value])
    ⟨.str defAnt, none, some ⟨.antenna, chan, dir⟩, some ⟨.antenna, chan, dir⟩⟩
  let t := tree_create t (fe_path ++ [.fixed .antenna, .fixed .options])
    ⟨.strlist [defAnt], none, none, none⟩
  let t := tree_create t (fe_path ++ [.fixed .freq, .fixed .value])
    ⟨.num MAGNESIUM_CENTER_FREQ, some ⟨.freq, chan, dir⟩, none,
      some ⟨.freq, chan, dir⟩⟩
  let t := tree_create t (fe_path ++ [.fixed .freq, .fixed .range])
    ⟨.range MAGNESIUM_MIN_FREQ MAGNESIUM_MAX_FREQ 0, none, none, none⟩
  let t := tree_create t (fe_path ++ [.fixed .gains, .fixed .null, .fixed .value])
    ⟨.num MAGNESIUM_DEFAULT_GAIN, some ⟨.gain, chan, dir⟩, none,
      some ⟨.gain, chan, dir⟩⟩
  let t := tree_create t (fe_path ++ [.fixed .gains, .fixed .null, .fixed .range])
    ⟨.range (if fe_idx = 0 then MAGNESIUM_MIN_RX_GAIN else MAGNESIUM_MIN_TX_GAIN)
            (if fe_idx = 0 then MAGNESIUM_MAX_RX_GAIN else MAGNESIUM_MAX_TX_GAIN)
            (if fe_idx = 0 then MAGNESIUM_RX_GAIN_STEP else MAGNESIUM_TX_GAIN_STEP),
      none, none, none⟩
  let t := if fe_idx = 0 then
      tree_create t (fe_path ++ [.fixed .bandwidth, .fixed .value])
        ⟨.num MAGNESIUM_DEFAULT_BANDWIDTH, some ⟨.bandwidth, chan, dir⟩, none,
          some ⟨.bandwidth, chan, dir⟩⟩
    else
      tree_create t (fe_path ++ [.fixed .bandwidth, .fixed .value])
        ⟨.num MAGNESIUM_DEFAULT_BANDWIDTH, none, none, none⟩
  tree_create t (fe_path ++ [.fixed .bandwidth, .fixed .range])
    ⟨.range MAGNESIUM_DEFAULT_BANDWIDTH MAGNESIUM_DEFAULT_BANDWIDTH 0,
      none, none, none⟩

/-- The frontend subtree built by the ctor for a given radio slot:
fe_idx ranges over {0 (RX), 1 (TX)} and chan over the per-direction
channel count (1 in this design). -/
def ctor_tree (slot : Char) : PropTree :=
  (List.range 2).foldl (fun t fe_idx =>
    (List.range (num_chans fe_idx)).foldl
      (fun t chan => fe_nodes slot fe_idx chan t) t)
    tree_empty

/- Bring-up defaults (source lines 217-244). -/

/-- Modelled from the spec (section 4.4 bring-up; the base class
radio_ctrl_impl lives in radio_ctrl_impl.cpp, which is not under src/):
the base class's per-channel stores, written directly by its
statically-dispatched set_* implementations.  Newest entry first; a
lookup takes the first match. -/
structure BaseState where
  rate : ℚ
  rx_freq : List (Nat × ℚ)
  rx_gain : List (Nat × ℚ)
  rx_ant : List (Nat × String)
  rx_bw : List (Nat × ℚ)
  tx_freq : List (Nat × ℚ)
  tx_gain : List (Nat × ℚ)
  tx_ant : List (Nat × String)

def base_set_rate (b : BaseState) (r : ℚ) : BaseState :=
  { b with rate := r }

def base_set_rx_frequency (b : BaseState) (freq : ℚ) (chan : Nat) : BaseState :=
  { b with rx_freq := (chan, freq) :: b.rx_freq }

def base_set_rx_gain (b : BaseState) (gain : ℚ) (chan : Nat) : BaseState :=
  { b with rx_gain := (chan, gain) :: b.rx_gain }

def base_set_rx_antenna (b : BaseState) (ant : String) (chan : Nat) : BaseState :=
  { b with rx_ant := (chan, ant) :: b.rx_ant }

def base_set_rx_bandwidth (b : BaseState) (bw : ℚ) (chan : Nat) : BaseState :=
  { b with rx_bw := (chan, bw) :: b.rx_bw }

def base_set_tx_frequency (b : BaseState) (freq : ℚ) (chan : Nat) : BaseState :=
  { b with tx_freq := (chan, freq) :: b.tx_freq }

def base_set_tx_gain (b : BaseState) (gain : ℚ) (chan : Nat) : BaseState :=
  { b with tx_gain := (chan, gain) :: b.tx_gain }

def base_set_tx_antenna (b : BaseState) (ant : String) (chan : Nat) : BaseState :=
  { b with tx_ant := (chan, ant) :: b.tx_ant }

/-- _init_defaults (source lines 217-244): sets the tick rate and, for
each channel, pushes the default frequency, gain, antenna (and, on RX,
bandwidth) through the explicitly base-qualified radio_ctrl_impl::set_*
calls — direct stores in the base class that never touch the RPC client
or this class's setters. -/
def _init_defaults (num_rx num_tx : Nat) (b : BaseState) : BaseState :=
  let b1 := base_set_rate b MAGNESIUM_TICK_RATE
  let b2 := (List.range num_rx).foldl (fun acc chan =>
    base_set_rx_bandwidth
      (base_set_rx_antenna
        (base_set_rx_gain
          (base_set_rx_frequency acc MAGNESIUM_CENTER_FREQ chan)
          MAGNESIUM_DEFAULT_GAIN chan)
        MAGNESIUM_DEFAULT_RX_ANTENNA chan)
      MAGNESIUM_DEFAULT_BANDWIDTH chan) b1
  (List.range num_tx).foldl (fun acc chan =>
    base_set_tx_antenna
      (base_set_tx_gain
        (base_set_tx_frequency acc MAGNESIUM_CENTER_FREQ chan)
        MAGNESIUM_DEFAULT_GAIN chan)
      MAGNESIUM_DEFAULT_TX_ANTENNA chan) b2

/-- Follows the spec's words, for comparison with _init_defaults (spec
sections 4.4 and 8): bring-up pushes the same defaults through this
class's normal runtime set_* path — the magnesium setters that validate
and call the firmware — rather than writing them directly. -/
def init_defaults_spec (num_rx num_tx : Nat) (s : RadioState) :
    Except UhdError RadioState := do
  let s1 ← (List.range num_rx).foldlM (fun acc chan => do
    let r1 ← set_rx_frequency MAGNESIUM_CENTER_FREQ chan acc
    let r2 ← set_rx_gain MAGNESIUM_DEFAULT_GAIN chan r1.2
    let a3 := set_rx_antenna MAGNESIUM_DEFAULT_RX_ANTENNA chan r2.2
    let _bw := set_rx_bandwidth MAGNESIUM_DEFAULT_BANDWIDTH chan
    pure a3) s
  (List.range num_tx).foldlM (fun acc chan => do
    let r1 ← set_tx_frequency MAGNESIUM_CENTER_FREQ chan acc
    let r2 ← set_tx_gain MAGNESIUM_DEFAULT_GAIN chan r1.2
    let a3 := set_tx_antenna MAGNESIUM_DEFAULT_TX_ANTENNA chan r2.2
    pure a3) s1

/- Concrete paths and states used in the claims. -/

/-- The tree path of the frequency value property of RX channel 0 in
slot A. -/
def rx0_freq_path : List Seg :=
  [.fixed .dboards, .slot 'A', .fixed .rx_frontends, .chan 0, .fixed .freq, .fixed .value]

def tx0_freq_path : List Seg :=
  [.fixed .dboards, .slot 'A', .fixed .tx_frontends, .chan 0, .fixed .freq, .fixed .value]

/-- The path channel 1 would have had; the ctor never creates it. -/
def rx1_freq_path : List Seg :=
  [.fixed .dboards, .slot 'A', .fixed .rx_frontends, .chan 1, .fixed .freq, .fixed .value]

/-- A radio state with no RPC client attached yet (the situation at and
right after construction, before set_rpc_client). -/
def detached : RadioState := ⟨"db_0_", none, []⟩

/-- An empty base-class store. -/
def base0 : BaseState := ⟨0, [], [], [], [], [], [], []⟩

/- Helper lemmas. -/

theorem decimalDigitsAux_eq (fuel : Nat) :
    ∀ n : Nat, n ≤ fuel → decimalDigitsAux fuel n = Nat.digits 10 n := by
  induction fuel with
  | zero =>
    intro n hn
    rw [Nat.le_zero.mp hn]
    simp [decimalDigitsAux]
  | succ fuel ih =>
    intro n hn
    by_cases h0 : n = 0
    · subst h0; simp [decimalDigitsAux]
    · rw [decimalDigitsAux, if_neg h0,
        Nat.digits_def' (by norm_num : (1:ℕ) < 10) (Nat.pos_of_ne_zero h0),
        ih (n / 10) ?_]
      have : n / 10 < n := Nat.div_lt_self (Nat.pos_of_ne_zero h0) (by norm_num)
      omega

theorem charToDigit_dchar : ∀ d : Nat, d < 10 → charToDigit? (dchar d) = some d := by
  decide

theorem parseDigits_map_dchar :
    ∀ ds : List Nat, (∀ d ∈ ds, d < 10) → parseDigits? (ds.map dchar) = some ds := by
  intro ds
  induction ds with
  | nil => intro _; rfl
  | cons a l ih =>
    intro h
    have ha : charToDigit? (dchar a) = some a :=
      charToDigit_dchar a (h a (List.mem_cons_self a l))
    have hl : parseDigits? (l.map dchar) = some l :=
      ih (fun d hd => h d (List.mem_cons_of_mem a hd))
    simp [parseDigits?, ha, hl]

/-- Decimal printing followed by decimal parsing is the identity on
unsigned integers. -/
theorem lexical_cast_nat_std_to_string (n : Nat) :
    lexical_cast_nat (std_to_string n) = some n := by
  by_cases h0 : n = 0
  · subst h0
    have h1 : parseDigits? [dchar 0] = some [0] := by
      simp [parseDigits?, charToDigit_dchar 0 (by norm_num)]
    unfold lexical_cast_nat std_to_string decimalChars
    rw [if_pos rfl]
    simp [h1, Nat.ofDigits]
  · have hdig : decimalDigitsAux n n = Nat.digits 10 n :=
      decimalDigitsAux_eq n n le_rfl
    have hlt : ∀ d ∈ (Nat.digits 10 n).reverse, d < 10 := by
      intro d hd
      exact Nat.digits_lt_base (by norm_num) (List.mem_reverse.mp hd)
    have hparse : parseDigits? ((Nat.digits 10 n).reverse.map dchar) =
        some (Nat.digits 10 n).reverse :=
      parseDigits_map_dchar _ hlt
    have hne : (Nat.digits 10 n).reverse ≠ [] := by
      simp [Nat.digits_ne_nil_iff_ne_zero, h0]
    unfold lexical_cast_nat std_to_string decimalChars
    rw [if_neg h0, hdig]
    simp only [String.data]
    rw [← List.map_reverse, hparse]
    simp [hne, Nat.ofDigits_digits]

/-- Overwriting the stored value at a path changes exactly that node
for a later access. -/
theorem lookup_tree_store (t : PropTree) (p : List Seg) (v : PropVal) :
    tree_store t p v p = (t p).map (fun n => { n with value := v }) := by
  simp [tree_store]

/-- _get_which succeeds on every valid (direction, channel) pair. -/
theorem get_which_ok (chan : Nat) (dir : direction_t) (hchan : chan = 0 ∨ chan = 1)
    (hdir : dir = .RX_DIRECTION ∨ dir = .TX_DIRECTION) :
    ∃ w, _get_which dir chan = .ok w := by
  rcases hdir with rfl | rfl <;> rcases hchan with rfl | rfl <;> exact ⟨_, rfl⟩

/- The ctor tree's nodes at the paths the claims touch, each computed
once here (and each node's absence for the never-created channel 1), so
that later proofs rewrite with these equations instead of re-evaluating
the tree. -/

theorem lookup_rx0_freq : ctor_tree 'A' rx0_freq_path =
    some ⟨.num MAGNESIUM_CENTER_FREQ, some ⟨.freq, 0, .RX_DIRECTION⟩, none,
      some ⟨.freq, 0, .RX_DIRECTION⟩⟩ := rfl

theorem lookup_tx0_freq : ctor_tree 'A' tx0_freq_path =
    some ⟨.num MAGNESIUM_CENTER_FREQ, some ⟨.freq, 0, .TX_DIRECTION⟩, none,
      some ⟨.freq, 0, .TX_DIRECTION⟩⟩ := rfl

theorem lookup_rx1_freq_none : ctor_tree 'A' rx1_freq_path = none := rfl

/- Claim theorems. -/

/-- Claim C2: for every valid pair (direction, channel) with direction
in {RECEIVE, TRANSMIT} and channel in {0, 1}, the hardware-identifier
derivation is deterministic (it is a function) and bijective onto the
four strings: derive(RECEIVE,0)="RX1", derive(RECEIVE,1)="RX2",
derive(TRANSMIT,0)="TX1", derive(TRANSMIT,1)="TX2" — the four outputs
are pairwise distinct, so the map is a bijection onto that set. -/
theorem claim_C2_which_bijective :
    _get_which .RX_DIRECTION 0 = .ok "RX1" ∧
    _get_which .RX_DIRECTION 1 = .ok "RX2" ∧
    _get_which .TX_DIRECTION 0 = .ok "TX1" ∧
    _get_which .TX_DIRECTION 1 = .ok "TX2" ∧
    (["RX1", "RX2", "TX1", "TX2"] : List String).Nodup :=
  ⟨rfl, rfl, rfl, rfl, by decide⟩

/-- Claim C6: for every antenna string written and every channel,
set_antenna succeeds as a no-op — the write is accepted (the adapter
returns without error, merely logging) and discarded (the radio state
is returned untouched) — and a subsequent get_antenna is unaffected by
the value written: it returns the fixed receive-direction identifier
"RX1"; in particular writing "RX2" and then reading does not return
"RX2". -/
theorem claim_C6_antenna_stub (ant : String) (chan : Nat) (dir : direction_t)
    (s : RadioState) (chan2 : Nat) (dir2 : direction_t) :
    _myk_set_antenna ant chan dir s = s ∧
    attr_set .antenna (.str ant) chan dir s = .ok (.str ant, s) ∧
    _myk_get_antenna chan2 dir2 = "RX1" ∧
    set_rx_antenna "RX2" chan s = s ∧
    get_rx_antenna chan2 = "RX1" ∧
    ("RX1" : String) ≠ "RX2" ∧
    _get_which .RX_DIRECTION 0 = .ok "RX1" :=
  ⟨rfl, rfl, rfl, rfl, rfl, by decide, rfl⟩

/-- Claim C7: for every bandwidth value written and every channel,
set_bandwidth succeeds, returning a value, and every subsequent
get_bandwidth returns the fixed default of 40,000,000 Hz regardless of
what was written. -/
theorem claim_C7_bandwidth_stub (bw : ℚ) (chan : Nat) (dir : direction_t)
    (chan2 : Nat) (dir2 : direction_t) (s : RadioState) :
    _myk_set_bandwidth bw chan dir = MAGNESIUM_DEFAULT_BANDWIDTH ∧
    attr_set .bandwidth (.num bw) chan dir s =
      .ok (.num MAGNESIUM_DEFAULT_BANDWIDTH, s) ∧
    _myk_get_bandwidth chan2 dir2 = MAGNESIUM_DEFAULT_BANDWIDTH ∧
    get_rx_bandwidth chan2 = MAGNESIUM_DEFAULT_BANDWIDTH ∧
    MAGNESIUM_DEFAULT_BANDWIDTH = 40000000 :=
  ⟨rfl, rfl, rfl, rfl, rfl⟩

/-- Claim C9: for every channel index and both directions (indeed any
directions, which both functions ignore), converting a channel to its
daughterboard frontend name and parsing it back is the identity. -/
theorem claim_C9_chan_fe_roundtrip (chan : Nat) (dir dir2 : direction_t) :
    get_chan_from_dboard_fe (get_dboard_fe_from_chan chan dir) dir2 = some chan :=
  lexical_cast_nat_std_to_string chan

/-- Claim C10: get_antenna returns the same fixed string "RX1" for
every channel and for both directions, including TRANSMIT — even after
bring-up has stored the TX antenna default "TX/RX" in the base class, a
TX antenna read returns "RX1" — and the antenna read never fails for
any channel value (the publisher-side operation returns ok on every
input). -/
theorem claim_C10_get_antenna_fixed (chan : Nat) (dir : direction_t)
    (s : RadioState) (b : BaseState) :
    _myk_get_antenna chan dir = "RX1" ∧
    get_tx_antenna chan = "RX1" ∧
    get_rx_antenna chan = "RX1" ∧
    attr_get .antenna chan dir s = .ok (.str "RX1", s) ∧
    ("RX1" : String) ≠ MAGNESIUM_DEFAULT_TX_ANTENNA ∧
    (_init_defaults 1 1 b).tx_ant.lookup 0 = some MAGNESIUM_DEFAULT_TX_ANTENNA :=
  ⟨rfl, rfl, rfl, rfl, by decide, rfl⟩

/-- Claim C3 counterexample: the claim says EVERY attribute operation
fails with InvalidArgument on a channel outside {0,1} or a direction
neither RX nor TX; but at the concrete invalid inputs channel 2 and
direction DX the antenna and bandwidth operations return ok — they
perform no validation at all. -/
theorem claim_C3_counterexample :
    attr_set .antenna (.str "RX2") 2 .RX_DIRECTION detached =
      .ok (.str "RX2", detached) ∧
    attr_set .bandwidth (.num 1) 2 .DX_DIRECTION detached =
      .ok (.num MAGNESIUM_DEFAULT_BANDWIDTH, detached) ∧
    attr_get .antenna 2 .DX_DIRECTION detached = .ok (.str "RX1", detached) ∧
    attr_get .bandwidth 2 .RX_DIRECTION detached =
      .ok (.num MAGNESIUM_DEFAULT_BANDWIDTH, detached) ∧
    attr_set .antenna (.str "RX2") 2 .RX_DIRECTION detached ≠
      .error .InvalidArgument :=
  ⟨rfl, rfl, rfl, rfl, fun h => Except.noConfusion h⟩

/-- Claim C3 (amended): for the frequency and gain operations (set or
get), a channel outside {0, 1} or a direction neither RECEIVE nor
TRANSMIT fails with InvalidArgument; the antenna and bandwidth stub
operations perform no argument validation and accept any channel and
direction without error. -/
theorem claim_C3_amended (freq gain bw : ℚ) (ant : String) (chan : Nat)
    (dir : direction_t) (s : RadioState)
    (hbad : ¬ (chan = 0 ∨ chan = 1) ∨
      ¬ (dir = .RX_DIRECTION ∨ dir = .TX_DIRECTION)) :
    _myk_set_frequency freq chan dir s = .error .InvalidArgument ∧
    _myk_set_gain gain chan dir s = .error .InvalidArgument ∧
    _myk_get_frequency chan dir s = .error .InvalidArgument ∧
    _myk_get_gain chan dir s = .error .InvalidArgument ∧
    attr_set .antenna (.str ant) chan dir s = .ok (.str ant, s) ∧
    attr_set .bandwidth (.num bw) chan dir s =
      .ok (.num MAGNESIUM_DEFAULT_BANDWIDTH, s) ∧
    attr_get .antenna chan dir s = .ok (.str "RX1", s) ∧
    attr_get .bandwidth chan dir s = .ok (.num MAGNESIUM_DEFAULT_BANDWIDTH, s) := by
  have hw : _get_which dir chan = .error .InvalidArgument := by
    unfold _get_which
    by_cases hd : dir = .RX_DIRECTION ∨ dir = .TX_DIRECTION
    · have hc : ¬ (chan = 0 ∨ chan = 1) := by tauto
      rw [if_pos hd, if_neg hc]
    · rw [if_neg hd]
  refine ⟨?_, ?_, ?_, ?_, rfl, rfl, rfl, rfl⟩
  · unfold _myk_set_frequency
    rw [hw]
    rfl
  · unfold _myk_set_gain
    rw [hw]
    rfl
  · unfold _myk_get_frequency
    rw [hw]
    rfl
  · unfold _myk_get_gain
    rw [hw]
    rfl

/-- Witness for claim C3 (amended) at channel 2, direction RX: the
hypothesis holds and the frequency write fails with InvalidArgument
while the antenna write succeeds. -/
theorem claim_C3_amended_witness :
    (¬ ((2 : Nat) = 0 ∨ (2 : Nat) = 1) ∨
      ¬ (direction_t.RX_DIRECTION = .RX_DIRECTION ∨
         direction_t.RX_DIRECTION = .TX_DIRECTION)) ∧
    _myk_set_frequency 1 2 .RX_DIRECTION detached = .error .InvalidArgument ∧
    attr_set .antenna (.str "X") 2 .RX_DIRECTION detached = .ok (.str "X", detached) :=
  ⟨by decide,
   (claim_C3_amended 1 1 1 "X" 2 .RX_DIRECTION detached (by decide)).1,
   (claim_C3_amended 1 1 1 "X" 2 .RX_DIRECTION detached (by decide)).2.2.2.2.1⟩

/-- Claim C8: for every frequency, channel in {0, 1} and direction
(RX/TX, so that the which derivation succeeds with some string w),
set_frequency issues exactly one RPC call, the method
"{rpc-name-stem}set_freq" with arguments (w, freq, retune_flag =
false), and returns the firmware's reported coerced frequency — the
client's response to exactly that call — unchanged, appending exactly
that call to the call trace. -/
theorem claim_C8_set_frequency_rpc (freq : ℚ) (chan : Nat) (dir : direction_t)
    (w : String) (hw : _get_which dir chan = .ok w)
    (pfx : String) (f : RpcClient) (lg : List (String × List RpcVal)) :
    _myk_set_frequency freq chan dir ⟨pfx, some f, lg⟩ =
      .ok (f (pfx ++ "set_freq") [.str w, .num freq, .flag false],
        ⟨pfx, some f, lg ++ [(pfx ++ "set_freq", [.str w, .num freq, .flag false])]⟩) := by
  unfold _myk_set_frequency
  rw [hw]
  rfl

/-- Witness for claim C8 at RX channel 0 with a client that answers 123
to every call: the which derivation yields "RX1" and the set issues
db_0_set_freq ("RX1", 2.5e9, false), returning 123. -/
theorem claim_C8_set_frequency_rpc_witness :
    _get_which .RX_DIRECTION 0 = .ok "RX1" ∧
    _myk_set_frequency 2500000000 0 .RX_DIRECTION ⟨"db_0_", some (fun _ _ => 123), []⟩ =
      .ok (123, ⟨"db_0_", some (fun _ _ => 123),
        [("db_0_set_freq", [.str "RX1", .num 2500000000, .flag false])]⟩) :=
  ⟨rfl,
   claim_C8_set_frequency_rpc 2500000000 0 .RX_DIRECTION "RX1" rfl
     "db_0_" (fun _ _ => 123) []⟩

/-- Claim C4: every set or get operation requiring remote access —
the frequency and gain operations, at the adapter level and through
the property-tree nodes the ctor wires to them — fails with
NoSessionToken when invoked before an RPC client is attached, and no
property node's value is mutated: a failing tree_set returns the error
and produces no updated tree, so the prior tree remains authoritative. -/
theorem claim_C4_no_token (pfx : String) (lg : List (String × List RpcVal))
    (freq gain : ℚ) (chan : Nat) (dir : direction_t)
    (hchan : chan = 0 ∨ chan = 1)
    (hdir : dir = .RX_DIRECTION ∨ dir = .TX_DIRECTION) :
    _myk_set_frequency freq chan dir ⟨pfx, none, lg⟩ = .error .NoSessionToken ∧
    _myk_set_gain gain chan dir ⟨pfx, none, lg⟩ = .error .NoSessionToken ∧
    _myk_get_frequency chan dir ⟨pfx, none, lg⟩ = .error .NoSessionToken ∧
    _myk_get_gain chan dir ⟨pfx, none, lg⟩ = .error .NoSessionToken ∧
    tree_set (ctor_tree 'A') rx0_freq_path (.num freq) ⟨pfx, none, lg⟩ =
      .error .NoSessionToken ∧
    tree_set (ctor_tree 'A') tx0_freq_path (.num freq) ⟨pfx, none, lg⟩ =
      .error .NoSessionToken ∧
    tree_get (ctor_tree 'A') rx0_freq_path ⟨pfx, none, lg⟩ = .error .NoSessionToken ∧
    tree_get (ctor_tree 'A') tx0_freq_path ⟨pfx, none, lg⟩ = .error .NoSessionToken := by
  obtain ⟨w, hw⟩ := get_which_ok chan dir hchan hdir
  refine ⟨?_, ?_, ?_, ?_, ?_, ?_, ?_, ?_⟩
  · unfold _myk_set_frequency
    rw [hw]
    rfl
  · unfold _myk_set_gain
    rw [hw]
    rfl
  · unfold _myk_get_frequency
    rw [hw]
    rfl
  · unfold _myk_get_gain
    rw [hw]
    rfl
  · unfold tree_set
    rw [lookup_rx0_freq]
    rfl
  · unfold tree_set
    rw [lookup_tx0_freq]
    rfl
  · unfold tree_get
    rw [lookup_rx0_freq]
    rfl
  · unfold tree_get
    rw [lookup_tx0_freq]
    rfl

/-- Witness for claim C4 at channel 0, direction RX, with an empty call
trace: both hypotheses hold and the operations fail with
NoSessionToken. -/
theorem claim_C4_no_token_witness :
    ((0 : Nat) = 0 ∨ (0 : Nat) = 1) ∧
    (direction_t.RX_DIRECTION = .RX_DIRECTION ∨
      direction_t.RX_DIRECTION = .TX_DIRECTION) ∧
    _myk_set_frequency 2500000000 0 .RX_DIRECTION ⟨"db_0_", none, []⟩ =
      .error .NoSessionToken ∧
    tree_set (ctor_tree 'A') rx0_freq_path (.num 2500000000) ⟨"db_0_", none, []⟩ =
      .error .NoSessionToken :=
  ⟨by decide, by decide,
   (claim_C4_no_token "db_0_" [] 2500000000 0 0 .RX_DIRECTION (by decide) (by decide)).1,
   (claim_C4_no_token "db_0_" [] 2500000000 0 0 .RX_DIRECTION
     (by decide) (by decide)).2.2.2.2.1⟩

/-- Claim C1 counterexample: the claim quantifies over channels {0, 1},
but the design creates exactly one channel per direction
(MAGNESIUM_NUM_RX_CHANS = 1), so channel 1 has no frequency property:
at the concrete input — a read of RX channel 1's frequency path with a
client attached — the read fails with a lookup error instead of
returning a freshly fetched value. -/
theorem claim_C1_counterexample :
    MAGNESIUM_NUM_RX_CHANS = 1 ∧
    ctor_tree 'A' rx1_freq_path = none ∧
    tree_get (ctor_tree 'A') rx1_freq_path ⟨"db_0_", some (fun _ _ => 123), []⟩ =
      .error .LookupError :=
  ⟨rfl, lookup_rx1_freq_none, by unfold tree_get; rw [lookup_rx1_freq_none]⟩

/-- Claim C1 (amended): for every created channel (channel 0, the only
one per direction in this design) and both directions, a read of the
frequency property invokes the registered publisher hook, which issues
a fresh RPC get_freq call and returns the firmware's answer to exactly
that call, appending it to the call trace; the stored node value is
never returned — whatever value v is stored under the node (such as one
left by an earlier write on the direction's shared LO), the read result
is the freshly fetched one and does not depend on v. -/
theorem claim_C1_freq_read_fresh (pfx : String) (lg : List (String × List RpcVal))
    (f : RpcClient) (v : PropVal) :
    tree_get (ctor_tree 'A') rx0_freq_path ⟨pfx, some f, lg⟩ =
      .ok (.num (f (pfx ++ "get_freq") [.str "RX1"]),
        ⟨pfx, some f, lg ++ [(pfx ++ "get_freq", [.str "RX1"])]⟩) ∧
    tree_get (tree_store (ctor_tree 'A') rx0_freq_path v) rx0_freq_path
        ⟨pfx, some f, lg⟩ =
      .ok (.num (f (pfx ++ "get_freq") [.str "RX1"]),
        ⟨pfx, some f, lg ++ [(pfx ++ "get_freq", [.str "RX1"])]⟩) ∧
    tree_get (tree_store (ctor_tree 'A') tx0_freq_path v) tx0_freq_path
        ⟨pfx, some f, lg⟩ =
      .ok (.num (f (pfx ++ "get_freq") [.str "TX1"]),
        ⟨pfx, some f, lg ++ [(pfx ++ "get_freq", [.str "TX1"])]⟩) := by
  refine ⟨?_, ?_, ?_⟩
  · unfold tree_get
    rw [lookup_rx0_freq]
    rfl
  · have hl := lookup_tree_store (ctor_tree 'A') rx0_freq_path v
    rw [lookup_rx0_freq] at hl
    unfold tree_get
    rw [hl]
    rfl
  · have hl := lookup_tree_store (ctor_tree 'A') tx0_freq_path v
    rw [lookup_tx0_freq] at hl
    unfold tree_get
    rw [hl]
    rfl

/-- Claim C5 counterexample: the claim says the bring-up defaults are
applied through the same set_* validation/coercion path used at
runtime.  At bring-up no RPC client is attached yet; pushing the
defaults through the runtime set path at that concrete state fails
with NoSessionToken, while the code's _init_defaults succeeds — it
writes the values directly into the base-class stores and issues no
call at all. -/
theorem claim_C5_counterexample :
    init_defaults_spec 1 1 detached = .error .NoSessionToken ∧
    _init_defaults 1 1 base0 =
      ⟨MAGNESIUM_TICK_RATE,
        [(0, MAGNESIUM_CENTER_FREQ)], [(0, MAGNESIUM_DEFAULT_GAIN)],
        [(0, MAGNESIUM_DEFAULT_RX_ANTENNA)], [(0, MAGNESIUM_DEFAULT_BANDWIDTH)],
        [(0, MAGNESIUM_CENTER_FREQ)], [(0, MAGNESIUM_DEFAULT_GAIN)],
        [(0, MAGNESIUM_DEFAULT_TX_ANTENNA)]⟩ :=
  ⟨rfl, rfl⟩

/-- Claim C5 (amended): bring-up with 1 RX and 1 TX channel initializes
frequency to 2.5e9 Hz, gain to 0.0 dB, RX antenna to "RX2", TX antenna
to "TX/RX" and RX bandwidth to 4e7 Hz — but these defaults are written
directly into the base class's per-channel stores by the statically
dispatched base-class set_* calls, not pushed through the runtime
magnesium validation/coercion path (which, before a client is attached,
could not succeed). -/
theorem claim_C5_defaults_direct (b : BaseState) :
    _init_defaults 1 1 b =
      { b with
        rate := MAGNESIUM_TICK_RATE,
        rx_freq := (0, MAGNESIUM_CENTER_FREQ) :: b.rx_freq,
        rx_gain := (0, MAGNESIUM_DEFAULT_GAIN) :: b.rx_gain,
        rx_ant := (0, MAGNESIUM_DEFAULT_RX_ANTENNA) :: b.rx_ant,
        rx_bw := (0, MAGNESIUM_DEFAULT_BANDWIDTH) :: b.rx_bw,
        tx_freq := (0, MAGNESIUM_CENTER_FREQ) :: b.tx_freq,
        tx_gain := (0, MAGNESIUM_DEFAULT_GAIN) :: b.tx_gain,
        tx_ant := (0, MAGNESIUM_DEFAULT_TX_ANTENNA) :: b.tx_ant } ∧
    MAGNESIUM_CENTER_FREQ = 2500000000 ∧
    MAGNESIUM_DEFAULT_GAIN = 0 ∧
    MAGNESIUM_DEFAULT_RX_ANTENNA = "RX2" ∧
    MAGNESIUM_DEFAULT_TX_ANTENNA = "TX/RX" ∧
    MAGNESIUM_DEFAULT_BANDWIDTH = 40000000 :=
  ⟨rfl, rfl, rfl, rfl, rfl, rfl⟩

end Magnesium
